import Mathlib

/-
Formal model of the image-to-PDF pipeline of src/app.py (a FastAPI
service). The Python code is shallowly embedded: the Pillow image library
is modelled abstractly (an image records its color mode, its format
attribute, its EXIF data, its pixel size and whether the JPEG encoder
succeeds on it), byte payloads are identified with the decode result they
produce, and the float arithmetic of the page-layout closure is modelled
exactly over the rationals.
-/

/-- Result of reading EXIF metadata from an image, as the code does with
img.getexif(): the read can raise, the mapping can be empty (falsy in
Python), or it holds an optional value for the Orientation tag (274). -/
inductive ExifData where
  | raisesOnRead : ExifData
  | empty : ExifData
  | tags : Option Nat → ExifData
deriving DecidableEq

/-- Abstract model of a Pillow image object: its color mode string, its
format attribute (set only by the file reader; None for images produced by
library operations), its EXIF data, its pixel size, and whether the JPEG
encoder succeeds when saving it (the encoder is an external collaborator,
abstracted by this flag). -/
structure PILImage where
  mode : String
  format : Option String
  exif : ExifData
  width : Nat
  height : Nat
  encodeOk : Bool
deriving DecidableEq

/-- Model of Image.rotate(angle, expand=True) for angle in {90, 180, 270}.
Pillow documents that the format attribute is set by the file reader and is
None for images created by running a method on an existing image, so the
rotated copy has format none; a 90 or 270 degree rotation with expand
swaps the pixel dimensions. -/
def PILImage.rotate (img : PILImage) (angle : Nat) : PILImage :=
  { mode := img.mode
    format := none
    exif := img.exif
    width := if angle = 90 ∨ angle = 270 then img.height else img.width
    height := if angle = 90 ∨ angle = 270 then img.width else img.height
    encodeOk := img.encodeOk }

/-- Embedding of _auto_orient (src/app.py lines 138-152): reads the EXIF
Orientation tag and applies the corrective rotation for codes 3, 6 and 8;
any other or missing code, an empty EXIF mapping, or an exception while
reading the metadata leaves the image unchanged (the except clause
swallows the error). -/
def _auto_orient (img : PILImage) : PILImage :=
  match img.exif with
  | ExifData.raisesOnRead => img
  | ExifData.empty => img
  | ExifData.tags o =>
      if o = some 3 then img.rotate 180
      else if o = some 6 then img.rotate 270
      else if o = some 8 then img.rotate 90
      else img

/-- Number of color channels of each Pillow image mode, from the Pillow
documentation on modes: 1, L, P, I, F have a single channel; LA, La, PA
have two; RGB, YCbCr, LAB, HSV have three; RGBA, RGBa, RGBX, CMYK have
four. Modes outside this table map to 0. -/
def modeChannels (mode : String) : Nat :=
  if mode = "1" ∨ mode = "L" ∨ mode = "P" ∨ mode = "I" ∨ mode = "F" then 1
  else if mode = "LA" ∨ mode = "La" ∨ mode = "PA" then 2
  else if mode = "RGB" ∨ mode = "YCbCr" ∨ mode = "LAB" ∨ mode = "HSV" then 3
  else if mode = "RGBA" ∨ mode = "RGBa" ∨ mode = "RGBX" ∨ mode = "CMYK" then 4
  else 0

/-- Model of img.convert("RGB"): the pixel data becomes three-channel RGB;
the result is a library-created image, so its format attribute is None. -/
def convertRGB (img : PILImage) : PILImage :=
  { mode := "RGB"
    format := none
    exif := img.exif
    width := img.width
    height := img.height
    encodeOk := img.encodeOk }

/-- Embedding of _ensure_rgb (src/app.py lines 155-160): images in modes
RGBA, LA or P are converted to RGB, as are images in mode L; every other
mode is returned unchanged. -/
def _ensure_rgb (img : PILImage) : PILImage :=
  if img.mode = "RGBA" ∨ img.mode = "LA" ∨ img.mode = "P" then convertRGB img
  else if img.mode = "L" then convertRGB img
  else img

/-- Decode behavior of an uploaded byte payload: Image.open either raises
(the bytes are not a decodable image) or yields an image object. The raw
bytes are identified with their decode result. -/
inductive FileData where
  | invalid : FileData
  | valid : PILImage → FileData
deriving DecidableEq

/-- Byte buffer handed to the page compositor: either the original upload
bytes, or the output of the JPEG encoder on an image at a quality level
with the optimize and progressive flags. -/
inductive EmbedBytes where
  | original : FileData → EmbedBytes
  | jpegEncoded : PILImage → Nat → Bool → Bool → EmbedBytes
deriving DecidableEq

/-- Embedding of _compress_to_jpeg_bytes (src/app.py lines 163-167):
normalizes the color mode and saves as JPEG with the given quality,
optimize=True and progressive=True; a failing save raises, modelled by the
error case. -/
def _compress_to_jpeg_bytes (img : PILImage) (quality : Nat) : Except String EmbedBytes :=
  if (_ensure_rgb img).encodeOk then
    Except.ok (EmbedBytes.jpegEncoded (_ensure_rgb img) quality true true)
  else Except.error "cannot write image as JPEG"

/-- ASCII model of Python str.lower on one character. -/
def lowerChar (ch : Char) : Char :=
  if 'A' ≤ ch ∧ ch ≤ 'Z' then Char.ofNat (ch.toNat + 32) else ch

/-- ASCII model of Python str.upper on one character. -/
def upperChar (ch : Char) : Char :=
  if 'a' ≤ ch ∧ ch ≤ 'z' then Char.ofNat (ch.toNat - 32) else ch

/-- ASCII model of Python str.lower. -/
def lowerStr (s : String) : String := ⟨s.data.map lowerChar⟩

/-- ASCII model of Python str.upper. -/
def upperStr (s : String) : String := ⟨s.data.map upperChar⟩

/-- Lexicographic comparison of character lists by code point; this is the
order Python uses to compare strings. -/
def strLeB : List Char → List Char → Bool
  | [], _ => true
  | _ :: _, [] => false
  | a :: as, b :: bs => if a < b then true else if b < a then false else strLeB as bs

/-- Python x or default for optional strings: None and the empty string
are falsy and give the default. -/
def pyOrStr (o : Option String) (dflt : String) : String :=
  match o with
  | none => dflt
  | some s => if s = "" then dflt else s

/-- Model of a FastAPI UploadFile as the handler reads it: the declared
filename, the declared content type and the byte payload. -/
structure UploadFile where
  filename : Option String
  content_type : Option String
  data : FileData
deriving DecidableEq

/-- Media-type check (f.content_type or "").startswith("image/") from
src/app.py lines 322 and 362. -/
def ctOk (f : UploadFile) : Bool :=
  "image/".data.isPrefixOf (pyOrStr f.content_type "").data

/-- Per-item processing shared by both modes of the handler (src/app.py
lines 328-334 and 367-373): open the bytes, auto-orient, then choose the
embedded bytes. An image whose format attribute is JPEG keeps the original
upload bytes; any other format (including an image whose format attribute
was cleared by rotation) is re-encoded to JPEG at quality 85. Decode and
encode failures are exceptions, modelled by the error case. -/
def processImage (compress : Option String) (f : UploadFile) : Except String EmbedBytes :=
  match f.data with
  | FileData.invalid => Except.error "cannot identify image file"
  | FileData.valid img0 =>
      let img := _auto_orient img0
      if compress = some "1" ∧ upperStr (pyOrStr img.format "") ≠ "JPEG" then
        _compress_to_jpeg_bytes img 85
      else
        if upperStr (pyOrStr img.format "") = "JPEG" then
          Except.ok (EmbedBytes.original f.data)
        else _compress_to_jpeg_bytes img 85

/-- Output of img2pdf.convert, modelled structurally: the layout callback
that was passed (identified by its margin parameter; none is the default
full-bleed layout) and the list of embedded image byte buffers, one page
each, in order. -/
structure PdfDoc where
  layoutMargin : Option ℚ
  streams : List EmbedBytes
deriving DecidableEq

/-- Model of a call to img2pdf.convert. -/
def img2pdf_convert (streams : List EmbedBytes) (layoutMargin : Option ℚ) : PdfDoc :=
  { layoutMargin := layoutMargin, streams := streams }

/-- Structured form of the localized error bodies built with msg(...): the
message key together with the arguments interpolated into it. -/
inductive ApiError where
  | noImages : ApiError
  | tooManyImages : Nat → Nat → ApiError
  | notImage : Option String → ApiError
  | imageProcessFailed : Option String → String → ApiError
  | pdfCreationFailed : String → ApiError
deriving DecidableEq

/-- Possible responses of the images-to-pdf endpoint: a JSON error with an
HTTP status, a streamed PDF with its attachment filename, or a streamed
zip archive of (entry name, single-page document) pairs. -/
inductive Response where
  | jsonError : Nat → ApiError → Response
  | pdfStream : String → PdfDoc → Response
  | zipStream : String → List (String × PdfDoc) → Response
deriving DecidableEq

/-- Python s.rsplit(".", 1)[0]: everything before the last dot, or the
whole string when there is no dot. -/
def rsplitDotHead (s : String) : String :=
  if s.data.contains '.' then
    ⟨((s.data.reverse.dropWhile (fun ch => ch ≠ '.')).drop 1).reverse⟩
  else s

/-- Entry name in per-file mode (src/app.py line 340):
(f.filename or "image").rsplit(".", 1)[0] + ".pdf". -/
def pdfName (filename : Option String) : String :=
  rsplitDotHead (pyOrStr filename "image") ++ ".pdf"

/-- Sort key (f.filename or "").lower() used when order=name. -/
def nameKey (f : UploadFile) : List Char :=
  (lowerStr (pyOrStr f.filename "")).data

/-- Comparison underlying the order=name sort. -/
def nameLe (a b : UploadFile) : Prop := strLeB (nameKey a) (nameKey b) = true

instance : DecidableRel nameLe :=
  fun a b => instDecidableEqBool (strLeB (nameKey a) (nameKey b)) true

instance : IsTotal UploadFile nameLe := by
  constructor
  intro a b
  show strLeB (nameKey a) (nameKey b) = true ∨ strLeB (nameKey b) (nameKey a) = true
  generalize nameKey a = x
  generalize nameKey b = y
  induction x generalizing y with
  | nil => left; rfl
  | cons p ps ih =>
    cases y with
    | nil => right; rfl
    | cons q qs =>
      simp only [strLeB]
      rcases lt_trichotomy p q with h | h | h
      · left; simp [h]
      · subst h; simpa [lt_irrefl] using ih qs
      · right; simp [h, asymm h]

instance : IsTrans UploadFile nameLe := by
  have key : ∀ x y z : List Char,
      strLeB x y = true → strLeB y z = true → strLeB x z = true := by
    intro x
    induction x with
    | nil => intro y z h1 h2; rfl
    | cons a as ih =>
      intro y z h1 h2
      cases y with
      | nil => simp [strLeB] at h1
      | cons b bs =>
        cases z with
        | nil => simp [strLeB] at h2
        | cons c cs =>
          simp only [strLeB] at h1 h2 ⊢
          rcases lt_trichotomy a b with hab | hab | hab
          · rcases lt_trichotomy b c with hbc | hbc | hbc
            · simp [lt_trans hab hbc]
            · subst hbc; simp [hab]
            · rw [if_neg (asymm hbc), if_pos hbc] at h2; simp at h2
          · subst hab
            rw [if_neg (lt_irrefl a), if_neg (lt_irrefl a)] at h1
            rcases lt_trichotomy a c with hac | hac | hac
            · simp [hac]
            · subst hac
              rw [if_neg (lt_irrefl a), if_neg (lt_irrefl a)] at h2
              rw [if_neg (lt_irrefl a), if_neg (lt_irrefl a)]
              exact ih bs cs h1 h2
            · rw [if_neg (asymm hac), if_pos hac] at h2; simp at h2
          · rw [if_neg (asymm hab), if_pos hab] at h1; simp at h1
  exact ⟨fun a b c hab hbc => key (nameKey a) (nameKey b) (nameKey c) hab hbc⟩

/-- Upper bound on the batch size (src/app.py line 132). -/
def MAX_IMAGES : Nat := 300

/-- Batch ordering (src/app.py lines 311-314). order=name sorts in place,
stably, by the lowercased filename; Python sort is stable, and a stable
insertion sort computes the same list. order=mtime sorts by a spooled
mtime attribute that UploadFile objects do not have, so getattr falls back
to time.time() for every element; those keys are nondecreasing in list
order, so the stable sort leaves the list unchanged. Any other value
leaves the arrival order. -/
def resolveOrder (order : String) (images : List UploadFile) : List UploadFile :=
  if order = "name" then images.insertionSort nameLe
  else if order = "mtime" then images
  else images

/-- Per-file branch loop (src/app.py lines 320-346): for each file in
order, check the media type (HTTP 400 not_image), then read, decode,
orient and encode inside a try whose except returns HTTP 400
image_process_failed naming the file, convert the single image to a
one-page document, and collect the (entry name, document) pairs; the first
failure ends the request. -/
def perFileLoop (compress : Option String) (style : String) (layoutMargin : Option ℚ) :
    List UploadFile → Except (Nat × ApiError) (List (String × PdfDoc))
  | [] => Except.ok []
  | f :: rest =>
      if ctOk f = true then
        match processImage compress f with
        | Except.error e => Except.error (400, ApiError.imageProcessFailed f.filename e)
        | Except.ok db =>
            match perFileLoop compress style layoutMargin rest with
            | Except.error err => Except.error err
            | Except.ok others =>
                Except.ok
                  ((pdfName f.filename,
                    if style = "full_bleed" then img2pdf_convert [db] none
                    else img2pdf_convert [db] layoutMargin) :: others)
      else Except.error (400, ApiError.notImage f.filename)

/-- Merged-mode loop (src/app.py lines 359-374): the whole loop runs
inside one try. A failing media-type check returns HTTP 400 not_image
directly; an exception from decode or encode escapes to the except clause,
which returns HTTP 500 pdf_creation_failed carrying only the exception
text. Successful items contribute their bytes in order. -/
def mergedLoop (compress : Option String) :
    List UploadFile → Except (Nat × ApiError) (List EmbedBytes)
  | [] => Except.ok []
  | f :: rest =>
      if ctOk f = true then
        match processImage compress f with
        | Except.error e => Except.error (500, ApiError.pdfCreationFailed e)
        | Except.ok db =>
            match mergedLoop compress rest with
            | Except.error err => Except.error err
            | Except.ok others => Except.ok (db :: others)
      else Except.error (400, ApiError.notImage f.filename)

/-- Embedding of the images_to_pdf endpoint handler (src/app.py lines
291-396). The lang parameter only selects the language of the error text
and is omitted; errors are modelled structurally by message key and
arguments. -/
def images_to_pdf (images : List UploadFile) (outfile : String) (order : String)
    (per_file : Option String) (style : String) (compress : Option String) : Response :=
  if images.isEmpty then Response.jsonError 400 ApiError.noImages
  else if MAX_IMAGES < images.length then
    Response.jsonError 400 (ApiError.tooManyImages images.length MAX_IMAGES)
  else
    let sorted := resolveOrder order images
    let layoutMargin : Option ℚ := if style = "a4_margins" then some 8 else none
    if per_file = some "1" then
      match perFileLoop compress style layoutMargin sorted with
      | Except.error err => Response.jsonError err.1 err.2
      | Except.ok singles => Response.zipStream "images_pdf.zip" singles
    else
      match mergedLoop compress sorted with
      | Except.error err => Response.jsonError err.1 err.2
      | Except.ok streams =>
          Response.pdfStream
            (if ".pdf".data.isSuffixOf (lowerStr outfile).data then outfile
             else outfile ++ ".pdf")
            (if style = "full_bleed" then img2pdf_convert streams none
             else img2pdf_convert streams layoutMargin)

/-- Embedding of img2pdf.mm_to_pt: 72 * length / 25.4, modelled exactly
over ℚ. -/
def mm_to_pt (length : ℚ) : ℚ := 72 * length / (254 / 10)

/-- Page geometry returned by the layout callback: page size, content
offset and content size, in points. -/
structure PageGeometry where
  pageW : ℚ
  pageH : ℚ
  x : ℚ
  y : ℚ
  w : ℚ
  h : ℚ
deriving DecidableEq

/-- Embedding of the closure returned by _layout_a4_with_margins
(src/app.py lines 170-189) applied to a pixel size; the unused ndpi and
metadata parameters are dropped, and the float arithmetic is modelled
exactly over ℚ. -/
def _layout_a4_with_margins (margin_mm : ℚ) (imgwidthpx imgheightpx : ℕ) : PageGeometry :=
  let a4_w_pt := mm_to_pt 210
  let a4_h_pt := mm_to_pt 297
  let m := mm_to_pt margin_mm
  let box_w := a4_w_pt - m - m
  let box_h := a4_h_pt - m - m
  let img_aspect : ℚ := (imgwidthpx : ℚ) / (imgheightpx : ℚ)
  let box_aspect := box_w / box_h
  if box_aspect < img_aspect then
    { pageW := a4_w_pt, pageH := a4_h_pt,
      x := (a4_w_pt - box_w) / 2, y := (a4_h_pt - box_w / img_aspect) / 2,
      w := box_w, h := box_w / img_aspect }
  else
    { pageW := a4_w_pt, pageH := a4_h_pt,
      x := (a4_w_pt - box_h * img_aspect) / 2, y := (a4_h_pt - box_h) / 2,
      w := box_h * img_aspect, h := box_h }

/-- Whether an Except value is a success. -/
def exceptOk {ε α : Type} (e : Except ε α) : Bool :=
  match e with
  | Except.ok _ => true
  | Except.error _ => false

/-- First item of the list that fails either the media-type check or the
per-item processing, in list order. -/
def firstBad (compress : Option String) (l : List UploadFile) : Option UploadFile :=
  l.find? (fun f => !(ctOk f && exceptOk (processImage compress f)))

/-- Whether a response is one of the three validation rejections:
no_images, too_many_images or not_image, with status 400. -/
def validationErr : Response → Bool
  | Response.jsonError st ApiError.noImages => st == 400
  | Response.jsonError st (ApiError.tooManyImages _ _) => st == 400
  | Response.jsonError st (ApiError.notImage _) => st == 400
  | _ => false

/-- Bytes contributed by a file that processes successfully; the fallback
error case never occurs under the hypotheses of the theorems that use
this function. -/
def embedOf (compress : Option String) (f : UploadFile) : EmbedBytes :=
  match processImage compress f with
  | Except.ok b => b
  | Except.error _ => EmbedBytes.original f.data

/-- Sample decoded PNG image in an already 3-channel mode. -/
def imgPngA : PILImage :=
  { mode := "RGB", format := some "PNG", exif := ExifData.empty,
    width := 10, height := 20, encodeOk := true }

/-- Sample decoded JPEG image with no EXIF orientation entry. -/
def imgJpegPlain : PILImage :=
  { mode := "RGB", format := some "JPEG", exif := ExifData.tags none,
    width := 30, height := 20, encodeOk := true }

/-- Sample decoded JPEG image whose EXIF orientation is 6. -/
def imgJpegOriented : PILImage :=
  { mode := "RGB", format := some "JPEG", exif := ExifData.tags (some 6),
    width := 30, height := 20, encodeOk := true }

/-- Sample decoded CMYK image (for example a CMYK TIFF). -/
def imgCMYK : PILImage :=
  { mode := "CMYK", format := some "TIFF", exif := ExifData.empty,
    width := 10, height := 10, encodeOk := true }

/-- Sample decoded image with an alpha channel. -/
def imgRGBA : PILImage :=
  { mode := "RGBA", format := some "PNG", exif := ExifData.empty,
    width := 10, height := 10, encodeOk := true }

/-- Valid upload named a.png. -/
def fileA : UploadFile :=
  { filename := some "a.png", content_type := some "image/png",
    data := FileData.valid imgPngA }

/-- Valid upload named b.png. -/
def fileB : UploadFile :=
  { filename := some "b.png", content_type := some "image/png",
    data := FileData.valid imgPngA }

/-- Valid upload named c.png. -/
def fileC : UploadFile :=
  { filename := some "c.png", content_type := some "image/png",
    data := FileData.valid imgPngA }

/-- Second valid upload also named b.png, to exhibit a name collision. -/
def fileB2 : UploadFile :=
  { filename := some "b.png", content_type := some "image/jpeg",
    data := FileData.valid imgJpegPlain }

/-- Upload with an image media type whose bytes do not decode. -/
def fileBadBytes : UploadFile :=
  { filename := some "bad.png", content_type := some "image/png",
    data := FileData.invalid }

/-- Upload whose declared media type is not an image type. -/
def fileText : UploadFile :=
  { filename := some "notes.txt", content_type := some "text/plain",
    data := FileData.valid imgPngA }

/-- Valid JPEG upload that needs no rotation. -/
def fileJpegPlain : UploadFile :=
  { filename := some "photo.jpg", content_type := some "image/jpeg",
    data := FileData.valid imgJpegPlain }

/-- Valid JPEG upload whose EXIF orientation is 6. -/
def fileJpegOriented : UploadFile :=
  { filename := some "sideways.jpg", content_type := some "image/jpeg",
    data := FileData.valid imgJpegOriented }

/-- Every ordering strategy returns a permutation of the uploaded batch. -/
theorem resolveOrder_perm (order : String) (l : List UploadFile) :
    List.Perm (resolveOrder order l) l := by
  unfold resolveOrder
  split
  · exact List.perm_insertionSort nameLe l
  · split
    · exact List.Perm.refl l
    · exact List.Perm.refl l

/-- The compress flag never changes the chosen bytes: for a non-JPEG
format both the flagged and the unflagged paths call the encoder, and for
a JPEG format both reuse the original bytes. -/
theorem processImage_compress_irrel (c : Option String) (f : UploadFile) :
    processImage c f = processImage none f := by
  unfold processImage
  cases f.data with
  | invalid => rfl
  | valid img0 =>
    by_cases hfmt : upperStr (pyOrStr (_auto_orient img0).format "") = "JPEG"
    · simp [hfmt]
    · by_cases hc : c = some "1" <;> simp [hfmt, hc]

/-- Characterization of the merged-mode loop by the first failing item:
with no failing item it returns all the chosen byte buffers in order; when
the first failing item fails the media-type check the loop returns the
not_image error with status 400; when it fails in decode or encode, the
exception escapes to the outer handler, giving pdf_creation_failed with
status 500 and no filename. -/
theorem mergedLoop_spec (c : Option String) (l : List UploadFile) :
    (firstBad c l = none → mergedLoop c l = Except.ok (l.map (embedOf c))) ∧
    (∀ g, firstBad c l = some g →
      (ctOk g = false → mergedLoop c l = Except.error (400, ApiError.notImage g.filename)) ∧
      (ctOk g = true →
        ∃ e, mergedLoop c l = Except.error (500, ApiError.pdfCreationFailed e))) := by
  induction l with
  | nil =>
    constructor
    · intro _; rfl
    · intro g hg; simp [firstBad] at hg
  | cons f rest ih =>
    by_cases hpf : (ctOk f && exceptOk (processImage c f)) = true
    · have hct : ctOk f = true := (Bool.and_eq_true_iff.mp hpf).1
      have hex : exceptOk (processImage c f) = true := (Bool.and_eq_true_iff.mp hpf).2
      have hfb : firstBad c (f :: rest) = firstBad c rest := by
        apply List.find?_cons_of_neg
        simp [hpf]
      obtain ⟨db, hdb⟩ : ∃ db, processImage c f = Except.ok db := by
        cases hpi : processImage c f with
        | error e => rw [hpi] at hex; simp [exceptOk] at hex
        | ok db => exact ⟨db, rfl⟩
      constructor
      · intro hnone
        rw [hfb] at hnone
        have hrest := ih.1 hnone
        simp [mergedLoop, hct, hdb, hrest, embedOf]
      · intro g hg
        rw [hfb] at hg
        refine ⟨fun hctg => ?_, fun hctg => ?_⟩
        · have := (ih.2 g hg).1 hctg
          simp [mergedLoop, hct, hdb, this]
        · obtain ⟨e, he⟩ := (ih.2 g hg).2 hctg
          exact ⟨e, by simp [mergedLoop, hct, hdb, he]⟩
    · have hpf2 : (ctOk f && exceptOk (processImage c f)) = false := by
        revert hpf; cases ctOk f && exceptOk (processImage c f) <;> simp
      have hfb : firstBad c (f :: rest) = some f := by
        apply List.find?_cons_of_pos
        simp [hpf2]
      constructor
      · intro hnone; rw [hfb] at hnone; cases hnone
      · intro g hg
        rw [hfb] at hg
        cases hg
        refine ⟨fun hctg => ?_, fun hctg => ?_⟩
        · simp [mergedLoop, hctg]
        · have hex : exceptOk (processImage c f) = false := by
            rw [hctg] at hpf2; simpa using hpf2
          cases hpi : processImage c f with
          | ok db => rw [hpi] at hex; simp [exceptOk] at hex
          | error e => exact ⟨e, by simp [mergedLoop, hctg, hpi]⟩

/-- Characterization of the per-file loop by the first failing item: with
no failing item it returns the (entry name, one-page document) pairs in
order; a media-type failure returns not_image with status 400; a decode or
encode failure is caught per item and returns image_process_failed naming
the file, with status 400. -/
theorem perFileLoop_spec (c : Option String) (style : String) (lm : Option ℚ)
    (l : List UploadFile) :
    (firstBad c l = none → perFileLoop c style lm l =
      Except.ok (l.map (fun f => (pdfName f.filename,
        if style = "full_bleed" then img2pdf_convert [embedOf c f] none
        else img2pdf_convert [embedOf c f] lm)))) ∧
    (∀ g, firstBad c l = some g →
      (ctOk g = false → perFileLoop c style lm l =
        Except.error (400, ApiError.notImage g.filename)) ∧
      (ctOk g = true → ∃ e, perFileLoop c style lm l =
        Except.error (400, ApiError.imageProcessFailed g.filename e))) := by
  induction l with
  | nil =>
    constructor
    · intro _; rfl
    · intro g hg; simp [firstBad] at hg
  | cons f rest ih =>
    by_cases hpf : (ctOk f && exceptOk (processImage c f)) = true
    · have hct : ctOk f = true := (Bool.and_eq_true_iff.mp hpf).1
      have hex : exceptOk (processImage c f) = true := (Bool.and_eq_true_iff.mp hpf).2
      have hfb : firstBad c (f :: rest) = firstBad c rest := by
        apply List.find?_cons_of_neg
        simp [hpf]
      obtain ⟨db, hdb⟩ : ∃ db, processImage c f = Except.ok db := by
        cases hpi : processImage c f with
        | error e => rw [hpi] at hex; simp [exceptOk] at hex
        | ok db => exact ⟨db, rfl⟩
      constructor
      · intro hnone
        rw [hfb] at hnone
        have hrest := ih.1 hnone
        simp [perFileLoop, hct, hdb, hrest, embedOf]
      · intro g hg
        rw [hfb] at hg
        refine ⟨fun hctg => ?_, fun hctg => ?_⟩
        · have := (ih.2 g hg).1 hctg
          simp [perFileLoop, hct, hdb, this]
        · obtain ⟨e, he⟩ := (ih.2 g hg).2 hctg
          exact ⟨e, by simp [perFileLoop, hct, hdb, he]⟩
    · have hpf2 : (ctOk f && exceptOk (processImage c f)) = false := by
        revert hpf; cases ctOk f && exceptOk (processImage c f) <;> simp
      have hfb : firstBad c (f :: rest) = some f := by
        apply List.find?_cons_of_pos
        simp [hpf2]
      constructor
      · intro hnone; rw [hfb] at hnone; cases hnone
      · intro g hg
        rw [hfb] at hg
        cases hg
        refine ⟨fun hctg => ?_, fun hctg => ?_⟩
        · simp [perFileLoop, hctg]
        · have hex : exceptOk (processImage c f) = false := by
            rw [hctg] at hpf2; simpa using hpf2
          cases hpi : processImage c f with
          | ok db => rw [hpi] at hex; simp [exceptOk] at hex
          | error e => exact ⟨e, by simp [perFileLoop, hctg, hpi]⟩

/-- C7: the Orientation Normalizer returns the image rotated by the
corrective rotation for EXIF orientation code 3 (180 degrees), 6 (270
degrees counterclockwise) and 8 (90 degrees counterclockwise); any other
or missing orientation code, an empty EXIF mapping, and a raising
metadata read all leave the image unchanged, and no error is surfaced to
the caller (the function is total and the except clause swallows the
exception). -/
theorem c7_auto_orient_spec (img : PILImage) :
    (img.exif = ExifData.raisesOnRead → _auto_orient img = img) ∧
    (img.exif = ExifData.empty → _auto_orient img = img) ∧
    (img.exif = ExifData.tags (some 3) → _auto_orient img = img.rotate 180) ∧
    (img.exif = ExifData.tags (some 6) → _auto_orient img = img.rotate 270) ∧
    (img.exif = ExifData.tags (some 8) → _auto_orient img = img.rotate 90) ∧
    (∀ o, img.exif = ExifData.tags o → o ≠ some 3 → o ≠ some 6 → o ≠ some 8 →
      _auto_orient img = img) := by
  exact ⟨fun h => by simp [_auto_orient, h], fun h => by simp [_auto_orient, h],
    fun h => by simp [_auto_orient, h], fun h => by simp [_auto_orient, h],
    fun h => by simp [_auto_orient, h],
    fun o h h3 h6 h8 => by simp [_auto_orient, h, h3, h6, h8]⟩

/-- C7 witness: a JPEG with EXIF orientation 6 is rotated by 270 degrees
counterclockwise. -/
theorem c7_witness :
    _auto_orient imgJpegOriented = imgJpegOriented.rotate 270 :=
  (c7_auto_orient_spec imgJpegOriented).2.2.2.1 rfl

/-- C2 is false on the code: a CMYK image, a mode the decoder can open, is
passed through _ensure_rgb unchanged, and CMYK has four channels, not
three. -/
theorem c2_counterexample :
    _ensure_rgb imgCMYK = imgCMYK ∧
    (_ensure_rgb imgCMYK).mode = "CMYK" ∧
    modeChannels (_ensure_rgb imgCMYK).mode ≠ 3 := by
  decide

/-- C2 amended: the Color-Space Normalizer converts exactly the modes
RGBA, LA, P and L to 3-channel RGB, and already-RGB images pass through
unchanged (still 3 channels); every mode outside RGBA, LA, P, L passes
through unchanged, so other decoder-supported modes such as CMYK (4
channels) or bilevel (1 channel) keep their channel count. -/
theorem c2_amended_ensure_rgb (img : PILImage) :
    (img.mode = "RGBA" ∨ img.mode = "LA" ∨ img.mode = "P" ∨ img.mode = "L" →
      _ensure_rgb img = convertRGB img ∧ modeChannels (_ensure_rgb img).mode = 3) ∧
    (img.mode = "RGB" → _ensure_rgb img = img ∧ modeChannels (_ensure_rgb img).mode = 3) ∧
    (¬(img.mode = "RGBA" ∨ img.mode = "LA" ∨ img.mode = "P" ∨ img.mode = "L") →
      _ensure_rgb img = img) := by
  refine ⟨fun h => ?_, fun h => ?_, fun h => ?_⟩
  · rcases h with h | h | h | h <;>
      simp [_ensure_rgb, convertRGB, modeChannels, h]
  · have h1 : ¬(img.mode = "RGBA" ∨ img.mode = "LA" ∨ img.mode = "P") := by
      simp [h]
    simp [_ensure_rgb, h1, h, modeChannels]
  · have h1 : ¬(img.mode = "RGBA" ∨ img.mode = "LA" ∨ img.mode = "P") := by
      intro hc; exact h (by tauto)
    have h2 : img.mode ≠ "L" := fun hc => h (by tauto)
    simp [_ensure_rgb, h1, h2]

/-- C2 witness: an RGBA image is converted and the result has 3 channels. -/
theorem c2_witness :
    _ensure_rgb imgRGBA = convertRGB imgRGBA ∧
    modeChannels (_ensure_rgb imgRGBA).mode = 3 :=
  (c2_amended_ensure_rgb imgRGBA).1 (Or.inl rfl)

/-- C5 is false on the code: a native JPEG upload whose EXIF orientation
is 6 is rotated by the orientation normalizer, and the rotated copy has
format attribute None (Pillow sets format only on reader-produced
images), so the JPEG test fails and the image is re-encoded instead of
having its original bytes embedded verbatim. -/
theorem c5_counterexample :
    processImage none fileJpegOriented ≠
      Except.ok (EmbedBytes.original fileJpegOriented.data) ∧
    processImage none fileJpegOriented =
      Except.ok (EmbedBytes.jpegEncoded (_ensure_rgb (_auto_orient imgJpegOriented))
        85 true true) := by
  have h2 : processImage none fileJpegOriented =
      Except.ok (EmbedBytes.jpegEncoded (_ensure_rgb (_auto_orient imgJpegOriented))
        85 true true) := by rfl
  refine ⟨?_, h2⟩
  rw [h2]
  intro hc
  exact EmbedBytes.noConfusion (Except.ok.inj hc)

/-- C5 amended: the format test runs on the image after orientation
normalization. If that image's format attribute is JPEG (a native JPEG
that needed no rotation), the original upload bytes are embedded verbatim
regardless of the compress flag; otherwise (a non-JPEG native format, or
a JPEG rotated by the normalizer, which clears the format attribute) the
image is re-encoded to JPEG at quality 85 with optimization and
progressive encoding enabled, again regardless of the compress flag. -/
theorem c5_amended_recompression (compress : Option String) (f : UploadFile)
    (img : PILImage) (hdata : f.data = FileData.valid img) :
    (upperStr (pyOrStr (_auto_orient img).format "") = "JPEG" →
      processImage compress f = Except.ok (EmbedBytes.original f.data)) ∧
    (upperStr (pyOrStr (_auto_orient img).format "") ≠ "JPEG" →
      (_ensure_rgb (_auto_orient img)).encodeOk = true →
      processImage compress f =
        Except.ok (EmbedBytes.jpegEncoded (_ensure_rgb (_auto_orient img)) 85 true true)) := by
  constructor
  · intro hfmt
    simp [processImage, hdata, hfmt]
  · intro hfmt henc
    by_cases hc : compress = some "1" <;>
      simp [processImage, hdata, hfmt, hc, _compress_to_jpeg_bytes, henc]

/-- C5 witness: a native JPEG with no rotation keeps its original bytes,
and re-running with the compress flag set changes nothing. -/
theorem c5_witness :
    processImage (some "1") fileJpegPlain =
      Except.ok (EmbedBytes.original fileJpegPlain.data) :=
  (c5_amended_recompression (some "1") fileJpegPlain imgJpegPlain rfl).1 (by decide)

/-- C1 is false on the code: in merged mode a batch whose image bytes fail
to decode is answered with HTTP status 500 and the pdf_creation_failed
message, which carries only the exception text and no filename, not the
HTTP 400 error naming the file that the claim states. -/
theorem c1_counterexample :
    images_to_pdf [fileBadBytes] "images.pdf" "name" none "full_bleed" none =
      Response.jsonError 500 (ApiError.pdfCreationFailed "cannot identify image file") ∧
    (500 : Nat) ≠ 400 := by
  decide

/-- C1 amended: in merged mode, whenever every item passes the media-type
check and some item's bytes fail to decode or re-encode, the request
fails immediately with an HTTP 500 error whose pdf_creation_failed
message carries the exception text but does not name the offending file,
and no partial PDF output is returned (the response is the error, not a
document). -/
theorem c1_amended_merged_failure (images : List UploadFile)
    (outfile order style : String) (per_file compress : Option String)
    (hpf : per_file ≠ some "1") (hne : images ≠ [])
    (hlen : images.length ≤ MAX_IMAGES)
    (hct : ∀ f ∈ images, ctOk f = true)
    (hbad : ∃ f ∈ images, exceptOk (processImage compress f) = false) :
    ∃ e, images_to_pdf images outfile order per_file style compress =
      Response.jsonError 500 (ApiError.pdfCreationFailed e) := by
  have hperm := resolveOrder_perm order images
  have hbad2 : ∃ f ∈ resolveOrder order images,
      (fun f => !(ctOk f && exceptOk (processImage compress f))) f = true := by
    obtain ⟨f, hf, hfe⟩ := hbad
    exact ⟨f, hperm.mem_iff.mpr hf, by simp [hfe]⟩
  obtain ⟨g, hg⟩ : ∃ g, firstBad compress (resolveOrder order images) = some g := by
    have h := List.find?_isSome.mpr hbad2
    have h2 : (firstBad compress (resolveOrder order images)).isSome = true := h
    cases hfb : firstBad compress (resolveOrder order images) with
    | none => rw [hfb] at h2; simp at h2
    | some g => exact ⟨g, rfl⟩
  have hg2 : List.find? (fun f => !(ctOk f && exceptOk (processImage compress f)))
      (resolveOrder order images) = some g := hg
  have hgct : ctOk g = true :=
    hct g (hperm.mem_iff.mp (List.mem_of_find?_eq_some hg2))
  obtain ⟨e, he⟩ := ((mergedLoop_spec compress (resolveOrder order images)).2 g hg).2 hgct
  refine ⟨e, ?_⟩
  have hempty : images.isEmpty = false := by
    cases images with
    | nil => exact absurd rfl hne
    | cons a l => rfl
  have hlen2 : ¬ MAX_IMAGES < images.length := not_lt.mpr hlen
  simp [images_to_pdf, hempty, hlen2, hpf, he]

/-- C1 amended witness at a one-image batch with undecodable bytes. -/
theorem c1_witness :
    ∃ e, images_to_pdf [fileBadBytes] "out" "as_is" none "a4_margins" none =
      Response.jsonError 500 (ApiError.pdfCreationFailed e) :=
  c1_amended_merged_failure [fileBadBytes] "out" "as_is" "a4_margins" none none
    (by decide) (by decide) (by decide) (by decide)
    ⟨fileBadBytes, by decide, by decide⟩

/-- Shape of the handler once the emptiness and batch-size validations
have passed: the per-file or merged branch runs on the resolved order. -/
theorem images_to_pdf_main (images : List UploadFile) (outfile order style : String)
    (per_file compress : Option String) (hempty : images.isEmpty = false)
    (hlen : ¬ MAX_IMAGES < images.length) :
    images_to_pdf images outfile order per_file style compress =
      (if per_file = some "1" then
        match perFileLoop compress style (if style = "a4_margins" then some 8 else none)
            (resolveOrder order images) with
        | Except.error err => Response.jsonError err.1 err.2
        | Except.ok singles => Response.zipStream "images_pdf.zip" singles
      else
        match mergedLoop compress (resolveOrder order images) with
        | Except.error err => Response.jsonError err.1 err.2
        | Except.ok streams =>
            Response.pdfStream
              (if ".pdf".data.isSuffixOf (lowerStr outfile).data then outfile
               else outfile ++ ".pdf")
              (if style = "full_bleed" then img2pdf_convert streams none
               else img2pdf_convert streams
                 (if style = "a4_margins" then some 8 else none))) := by
  simp [images_to_pdf, hempty, hlen]

/-- C6 is false on the code: this batch contains an item whose declared
media type does not begin with image/, yet the request is not rejected
with an HTTP 400 validation error, because the undecodable item processed
before it raises first and merged mode answers HTTP 500
pdf_creation_failed. -/
theorem c6_counterexample :
    ctOk fileText = false ∧ fileText ∈ [fileBadBytes, fileText] ∧
    images_to_pdf [fileBadBytes, fileText] "images.pdf" "as_is" none "full_bleed" none =
      Response.jsonError 500 (ApiError.pdfCreationFailed "cannot identify image file") ∧
    validationErr (images_to_pdf [fileBadBytes, fileText] "images.pdf" "as_is" none
      "full_bleed" none) = false := by
  decide

/-- C6 amended: the empty batch is rejected with the no_images error and
a batch of more than 300 items with the size-limit error (both HTTP 400),
so 300 items pass the size check and 301 do not; when validation and all
per-item checks pass, no error is returned at all; and a 400 validation
error (no_images, too_many_images or not_image) is returned exactly when
the batch is empty, or exceeds 300 items, or the first item of the
resolved order to fail either check fails the media-type check — a decode
or encode failure on an earlier item preempts the media-type rejection of
a later item. -/
theorem c6_amended_validation (images : List UploadFile) (outfile order style : String)
    (per_file compress : Option String) :
    (images = [] → images_to_pdf images outfile order per_file style compress =
      Response.jsonError 400 ApiError.noImages) ∧
    (images ≠ [] → MAX_IMAGES < images.length →
      images_to_pdf images outfile order per_file style compress =
        Response.jsonError 400 (ApiError.tooManyImages images.length MAX_IMAGES)) ∧
    (images ≠ [] → images.length ≤ MAX_IMAGES →
      firstBad compress (resolveOrder order images) = none →
      ∀ st e, images_to_pdf images outfile order per_file style compress ≠
        Response.jsonError st e) ∧
    (validationErr (images_to_pdf images outfile order per_file style compress) = true ↔
      (images = [] ∨ MAX_IMAGES < images.length ∨
        ∃ g, firstBad compress (resolveOrder order images) = some g ∧ ctOk g = false)) := by
  by_cases hemp : images = []
  · subst hemp
    refine ⟨fun _ => rfl, fun h => absurd rfl h, fun h => absurd rfl h, ?_⟩
    constructor
    · intro _; exact Or.inl rfl
    · intro _; rfl
  · have hempty : images.isEmpty = false := by
      cases images with
      | nil => exact absurd rfl hemp
      | cons a l => rfl
    by_cases hlen : MAX_IMAGES < images.length
    · have heq : images_to_pdf images outfile order per_file style compress =
          Response.jsonError 400 (ApiError.tooManyImages images.length MAX_IMAGES) := by
        simp [images_to_pdf, hempty, hlen]
      refine ⟨fun h => absurd h hemp, fun _ _ => heq,
        fun _ h2 => absurd hlen (not_lt.mpr h2), ?_⟩
      rw [heq]
      constructor
      · intro _; exact Or.inr (Or.inl hlen)
      · intro _; rfl
    · have hmain := images_to_pdf_main images outfile order style per_file compress hempty hlen
      cases hfb : firstBad compress (resolveOrder order images) with
      | none =>
        have hml := (mergedLoop_spec compress (resolveOrder order images)).1 hfb
        have hpl := (perFileLoop_spec compress style
          (if style = "a4_margins" then some 8 else none) (resolveOrder order images)).1 hfb
        refine ⟨fun h => absurd h hemp, fun _ h => absurd h hlen,
          fun _ _ _ st e => ?_, ?_⟩
        · rw [hmain]
          by_cases hpf : per_file = some "1" <;> simp [hpf, hml, hpl]
        · rw [hmain]
          by_cases hpf : per_file = some "1" <;>
            simp [hpf, hml, hpl, validationErr, hemp, hlen, hfb]
      | some g =>
        have hspec2 := (mergedLoop_spec compress (resolveOrder order images)).2 g hfb
        have hspec2p := (perFileLoop_spec compress style
          (if style = "a4_margins" then some 8 else none) (resolveOrder order images)).2 g hfb
        refine ⟨fun h => absurd h hemp, fun _ h => absurd h hlen,
          fun _ _ h => Option.noConfusion h, ?_⟩
        by_cases hctg : ctOk g = true
        · obtain ⟨e, he⟩ := hspec2.2 hctg
          obtain ⟨e2, he2⟩ := hspec2p.2 hctg
          rw [hmain]
          by_cases hpf : per_file = some "1" <;>
            simp [hpf, he, he2, validationErr, hemp, hlen, hfb, hctg]
        · have hctg2 : ctOk g = false := by
            revert hctg; cases ctOk g <;> simp
          have he := hspec2.1 hctg2
          have he2 := hspec2p.1 hctg2
          rw [hmain]
          constructor
          · intro _; exact Or.inr (Or.inr ⟨g, rfl, hctg2⟩)
          · intro _
            by_cases hpf : per_file = some "1" <;> simp [hpf, he, he2, validationErr]

/-- C6 witness: a batch of 301 valid images is rejected with the
size-limit error naming the count and the bound. -/
theorem c6_witness :
    images_to_pdf (List.replicate 301 fileA) "images.pdf" "name" none "full_bleed" none =
      Response.jsonError 400
        (ApiError.tooManyImages (List.replicate 301 fileA).length MAX_IMAGES) :=
  (c6_amended_validation (List.replicate 301 fileA) "images.pdf" "name" "full_bleed"
      none none).2.1
    (fun h => by
      have h2 := congrArg List.length h
      rw [List.length_replicate] at h2
      exact absurd h2 (by norm_num))
    (by rw [List.length_replicate]; norm_num [MAX_IMAGES])

/-- The merged loop does not depend on the compress flag. -/
theorem mergedLoop_compress_irrel (c : Option String) (l : List UploadFile) :
    mergedLoop c l = mergedLoop none l := by
  induction l with
  | nil => rfl
  | cons f rest ih => simp only [mergedLoop, processImage_compress_irrel c f, ih]

/-- The per-file loop does not depend on the compress flag. -/
theorem perFileLoop_compress_irrel (c : Option String) (style : String) (lm : Option ℚ)
    (l : List UploadFile) :
    perFileLoop c style lm l = perFileLoop none style lm l := by
  induction l with
  | nil => rfl
  | cons f rest ih => simp only [perFileLoop, processImage_compress_irrel c f, ih]

/-- With no layout callback the per-file loop does not depend on the
style string: both branches of its inner conditional convert with the
default layout. -/
theorem perFileLoop_style_irrel (c : Option String) (s t : String) (l : List UploadFile) :
    perFileLoop c s none l = perFileLoop c t none l := by
  induction l with
  | nil => rfl
  | cons f rest ih => simp only [perFileLoop, ih, ite_self]

/-- C8: with per_file set to 1 and a batch of N valid images (nonempty,
within the size bound, every item passing the media-type check and
decoding and re-encoding successfully), the response is the zip archive
with exactly N entries whose names are, in the resolved batch order, each
input's filename with its extension replaced by .pdf; colliding names are
not deduplicated, since every input contributes its own entry to the
archive list. -/
theorem c8_per_file_zip (images : List UploadFile) (outfile order style : String)
    (compress : Option String) (hne : images ≠ [])
    (hlen : images.length ≤ MAX_IMAGES)
    (hok : ∀ f ∈ images, ctOk f = true ∧ exceptOk (processImage compress f) = true) :
    ∃ entries, images_to_pdf images outfile order (some "1") style compress =
        Response.zipStream "images_pdf.zip" entries ∧
      entries.length = images.length ∧
      List.map Prod.fst entries =
        List.map (fun f => pdfName f.filename) (resolveOrder order images) := by
  have hempty : images.isEmpty = false := by
    cases images with
    | nil => exact absurd rfl hne
    | cons a l => rfl
  have hlen2 : ¬ MAX_IMAGES < images.length := not_lt.mpr hlen
  have hperm := resolveOrder_perm order images
  have hfb : firstBad compress (resolveOrder order images) = none := by
    apply List.find?_eq_none.mpr
    intro f hf
    obtain ⟨h1, h2⟩ := hok f (hperm.mem_iff.mp hf)
    simp [h1, h2]
  have hpl := (perFileLoop_spec compress style
    (if style = "a4_margins" then some 8 else none) (resolveOrder order images)).1 hfb
  have hmain := images_to_pdf_main images outfile order style (some "1") compress hempty hlen2
  refine ⟨(resolveOrder order images).map (fun f => (pdfName f.filename,
    if style = "full_bleed" then img2pdf_convert [embedOf compress f] none
    else img2pdf_convert [embedOf compress f]
      (if style = "a4_margins" then some 8 else none))), ?_, ?_, ?_⟩
  · rw [hmain]
    simp [hpl]
  · rw [List.length_map]
    exact hperm.length_eq
  · rw [List.map_map]
    rfl

/-- C8 witness: three valid uploads named b.png, a.png and again b.png in
per-file mode produce a three-entry archive whose names follow the
resolved order, with the duplicate name appearing twice. -/
theorem c8_witness :
    ∃ entries,
      images_to_pdf [fileB, fileA, fileB2] "out" "name" (some "1") "full_bleed" none =
        Response.zipStream "images_pdf.zip" entries ∧
      entries.length = ([fileB, fileA, fileB2] : List UploadFile).length ∧
      List.map Prod.fst entries = List.map (fun f => pdfName f.filename)
        (resolveOrder "name" [fileB, fileA, fileB2]) :=
  c8_per_file_zip [fileB, fileA, fileB2] "out" "name" "full_bleed" none
    (by decide) (by decide) (by decide)

/-- C9: when order is name the handler sorts the batch case-insensitively
by filename ascending (stably) and, in merged mode on a valid batch, the
emitted page sequence is exactly the per-image byte buffers of that
resolved order with no downstream reordering; in particular uploads named
b.png, a.png, c.png produce the page sequence a.png, b.png, c.png. -/
theorem c9_order_name (images : List UploadFile) (outfile style : String)
    (per_file compress : Option String) (hpf : per_file ≠ some "1") (hne : images ≠ [])
    (hlen : images.length ≤ MAX_IMAGES)
    (hok : ∀ f ∈ images, ctOk f = true ∧ exceptOk (processImage compress f) = true) :
    (∃ doc, images_to_pdf images outfile "name" per_file style compress =
        Response.pdfStream
          (if ".pdf".data.isSuffixOf (lowerStr outfile).data then outfile
           else outfile ++ ".pdf") doc ∧
      List.Perm (images.insertionSort nameLe) images ∧
      List.Pairwise nameLe (images.insertionSort nameLe) ∧
      doc.streams = List.map (embedOf compress) (images.insertionSort nameLe)) ∧
    images_to_pdf [fileB, fileA, fileC] "images.pdf" "name" none "full_bleed" none =
      Response.pdfStream "images.pdf"
        (img2pdf_convert [embedOf none fileA, embedOf none fileB, embedOf none fileC]
          none) := by
  constructor
  · have hempty : images.isEmpty = false := by
      cases images with
      | nil => exact absurd rfl hne
      | cons a l => rfl
    have hlen2 : ¬ MAX_IMAGES < images.length := not_lt.mpr hlen
    have hres : resolveOrder "name" images = images.insertionSort nameLe := by
      simp [resolveOrder]
    have hperm := resolveOrder_perm "name" images
    have hfb : firstBad compress (resolveOrder "name" images) = none := by
      apply List.find?_eq_none.mpr
      intro f hf
      obtain ⟨h1, h2⟩ := hok f (hperm.mem_iff.mp hf)
      simp [h1, h2]
    have hml := (mergedLoop_spec compress (resolveOrder "name" images)).1 hfb
    have hmain := images_to_pdf_main images outfile "name" style per_file compress
      hempty hlen2
    refine ⟨if style = "full_bleed" then
        img2pdf_convert ((images.insertionSort nameLe).map (embedOf compress)) none
      else img2pdf_convert ((images.insertionSort nameLe).map (embedOf compress))
        (if style = "a4_margins" then some 8 else none), ?_, ?_, ?_, ?_⟩
    · rw [hmain]
      rw [hres] at hml
      simp [hpf, hres, hml]
    · exact List.perm_insertionSort nameLe images
    · exact List.sorted_insertionSort nameLe images
    · by_cases hst : style = "full_bleed" <;> simp [hst, img2pdf_convert]
  · decide

/-- C9 witness: the concrete three-upload instance of the claim. -/
theorem c9_witness :
    images_to_pdf [fileB, fileA, fileC] "images.pdf" "name" none "full_bleed" none =
      Response.pdfStream "images.pdf"
        (img2pdf_convert [embedOf none fileA, embedOf none fileB, embedOf none fileC]
          none) :=
  (c9_order_name [fileB, fileA, fileC] "images.pdf" "full_bleed" none none
    (by decide) (by decide) (by decide) (by decide)).2

/-- C10: unrecognized option values are never rejected and silently fall
back to the defaults: any style other than a4_margins behaves exactly as
full_bleed, any per_file other than 1 produces the single merged PDF, any
compress other than 1 behaves as the unset flag, and any order other than
name or mtime leaves the arrival order unchanged (the handler result
equals the as-submitted run). -/
theorem c10_option_fallbacks (images : List UploadFile) (outfile order style : String)
    (per_file compress : Option String) :
    (style ≠ "a4_margins" →
      images_to_pdf images outfile order per_file style compress =
        images_to_pdf images outfile order per_file "full_bleed" compress) ∧
    (per_file ≠ some "1" →
      images_to_pdf images outfile order per_file style compress =
        images_to_pdf images outfile order none style compress) ∧
    (compress ≠ some "1" →
      images_to_pdf images outfile order per_file style compress =
        images_to_pdf images outfile order per_file style none) ∧
    (order ≠ "name" → order ≠ "mtime" →
      resolveOrder order images = images ∧
      images_to_pdf images outfile order per_file style compress =
        images_to_pdf images outfile "as_is" per_file style compress) := by
  by_cases hemp : images.isEmpty = true
  · refine ⟨fun _ => ?_, fun _ => ?_, fun _ => ?_, fun ho1 ho2 => ⟨?_, ?_⟩⟩
    · simp [images_to_pdf, hemp]
    · simp [images_to_pdf, hemp]
    · simp [images_to_pdf, hemp]
    · simp [resolveOrder, ho1, ho2]
    · simp [images_to_pdf, hemp]
  · have hempty : images.isEmpty = false := by
      revert hemp; cases images.isEmpty <;> simp
    by_cases hlen : MAX_IMAGES < images.length
    · refine ⟨fun _ => ?_, fun _ => ?_, fun _ => ?_, fun ho1 ho2 => ⟨?_, ?_⟩⟩
      · simp [images_to_pdf, hempty, hlen]
      · simp [images_to_pdf, hempty, hlen]
      · simp [images_to_pdf, hempty, hlen]
      · simp [resolveOrder, ho1, ho2]
      · simp [images_to_pdf, hempty, hlen]
    · refine ⟨fun hst => ?_, fun hpf => ?_, fun _ => ?_, fun ho1 ho2 => ?_⟩
      · rw [images_to_pdf_main images outfile order style per_file compress hempty hlen,
          images_to_pdf_main images outfile order "full_bleed" per_file compress hempty hlen]
        have hlm : (if style = "a4_margins" then (some 8 : Option ℚ) else none) = none := by
          simp [hst]
        have hlm2 : (if "full_bleed" = "a4_margins" then (some 8 : Option ℚ) else none)
            = none := by decide
        rw [hlm, hlm2]
        by_cases hpf : per_file = some "1"
        · simp [hpf, perFileLoop_style_irrel compress style "full_bleed"
            (resolveOrder order images)]
        · simp only [hpf, if_neg]
          cases hml : mergedLoop compress (resolveOrder order images) with
          | error err => rfl
          | ok streams => simp [ite_self, hst]
      · rw [images_to_pdf_main images outfile order style per_file compress hempty hlen,
          images_to_pdf_main images outfile order style none compress hempty hlen]
        simp [hpf]
      · rw [images_to_pdf_main images outfile order style per_file compress hempty hlen,
          images_to_pdf_main images outfile order style per_file none hempty hlen]
        rw [mergedLoop_compress_irrel compress (resolveOrder order images),
          perFileLoop_compress_irrel compress style
            (if style = "a4_margins" then some 8 else none) (resolveOrder order images)]
      · have hres : resolveOrder order images = images := by
          simp [resolveOrder, ho1, ho2]
        have hres2 : resolveOrder "as_is" images = images := by
          simp [resolveOrder]
        refine ⟨hres, ?_⟩
        rw [images_to_pdf_main images outfile order style per_file compress hempty hlen,
          images_to_pdf_main images outfile "as_is" style per_file compress hempty hlen,
          hres, hres2]

/-- C10 witness: an unrecognized style value behaves as full_bleed on a
concrete batch. -/
theorem c10_witness :
    images_to_pdf [fileA] "out" "random" (some "0") "banana" (some "yes") =
      images_to_pdf [fileA] "out" "random" (some "0") "full_bleed" (some "yes") :=
  (c10_option_fallbacks [fileA] "out" "random" "banana" (some "0") (some "yes")).1
    (by decide)

/-- C3 is false as stated: for a 100 by 1 pixel image the offset, which the
geometry measures from the page origin, satisfies offset_x + content_w =
page width minus one margin, which exceeds box_w (the A4 width minus both
8mm margins). -/
theorem c3_counterexample :
    mm_to_pt 210 - mm_to_pt 8 - mm_to_pt 8 <
      (_layout_a4_with_margins 8 100 1).x + (_layout_a4_with_margins 8 100 1).w := by
  norm_num [_layout_a4_with_margins, mm_to_pt]

/-- C3 amended: for all positive pixel dimensions the geometry has no
negative offsets or dimensions, and the content rectangle lies inside the
margin-reduced box as positioned on the page: since the offsets are
measured from the page origin, the containment inequalities are
margin ≤ offset_x and offset_x + content_w ≤ page width − margin
(equivalently offset_x − margin ≥ 0 and (offset_x − margin) + content_w
≤ box_w), and symmetrically on the y axis. -/
theorem c3_amended_layout_contained (W H : ℕ) (hW : 0 < W) (hH : 0 < H) :
    0 ≤ (_layout_a4_with_margins 8 W H).x ∧
    0 ≤ (_layout_a4_with_margins 8 W H).y ∧
    0 < (_layout_a4_with_margins 8 W H).w ∧
    0 < (_layout_a4_with_margins 8 W H).h ∧
    mm_to_pt 8 ≤ (_layout_a4_with_margins 8 W H).x ∧
    (_layout_a4_with_margins 8 W H).x + (_layout_a4_with_margins 8 W H).w ≤
      (_layout_a4_with_margins 8 W H).pageW - mm_to_pt 8 ∧
    mm_to_pt 8 ≤ (_layout_a4_with_margins 8 W H).y ∧
    (_layout_a4_with_margins 8 W H).y + (_layout_a4_with_margins 8 W H).h ≤
      (_layout_a4_with_margins 8 W H).pageH - mm_to_pt 8 := by
  have hA : 0 < (W:ℚ)/(H:ℚ) := by
    apply div_pos
    · exact_mod_cast hW
    · exact_mod_cast hH
  simp only [_layout_a4_with_margins, mm_to_pt]
  split_ifs with hc
  · norm_num at hc
    have hB : (69840:ℚ)/127 / ((W:ℚ)/(H:ℚ)) ≤ 101160/127 := by
      rw [div_le_iff hA]
      linarith
    have hBpos : 0 < (69840:ℚ)/127 / ((W:ℚ)/(H:ℚ)) := by positivity
    refine ⟨by norm_num, by norm_num; linarith [hB], by norm_num, by positivity,
      by norm_num, by norm_num, by norm_num; linarith [hB], by norm_num; linarith [hB]⟩
  · norm_num at hc
    have hw : (101160:ℚ)/127 * ((W:ℚ)/(H:ℚ)) ≤ 69840/127 := by linarith
    have hwpos : 0 < (101160:ℚ)/127 * ((W:ℚ)/(H:ℚ)) := by positivity
    refine ⟨by norm_num; linarith [hw, hwpos], by norm_num, by positivity, by norm_num,
      by norm_num; linarith [hw, hwpos], by norm_num; linarith [hw, hwpos],
      by norm_num, by norm_num⟩

/-- C3 amended witness at the pixel dimensions 3 by 4. -/
theorem c3_witness :
    0 ≤ (_layout_a4_with_margins 8 3 4).x ∧
    0 ≤ (_layout_a4_with_margins 8 3 4).y ∧
    0 < (_layout_a4_with_margins 8 3 4).w ∧
    0 < (_layout_a4_with_margins 8 3 4).h ∧
    mm_to_pt 8 ≤ (_layout_a4_with_margins 8 3 4).x ∧
    (_layout_a4_with_margins 8 3 4).x + (_layout_a4_with_margins 8 3 4).w ≤
      (_layout_a4_with_margins 8 3 4).pageW - mm_to_pt 8 ∧
    mm_to_pt 8 ≤ (_layout_a4_with_margins 8 3 4).y ∧
    (_layout_a4_with_margins 8 3 4).y + (_layout_a4_with_margins 8 3 4).h ≤
      (_layout_a4_with_margins 8 3 4).pageH - mm_to_pt 8 :=
  c3_amended_layout_contained 3 4 (by decide) (by decide)

/-- C4: for all positive pixel dimensions the fixed-page layout returns
the A4 page size in points, content sized by the aspect branch on the
margin-reduced box (box_w and box_h are the A4 sides minus both 8mm
margins): width-limited when width/height exceeds box_w/box_h, otherwise
height-limited; offsets centering the content, offset = (page dimension −
content dimension) / 2 on each axis; and the content aspect ratio
content_w / content_h equals width / height exactly. -/
theorem c4_layout_formulas (W H : ℕ) (hW : 0 < W) (hH : 0 < H) :
    (_layout_a4_with_margins 8 W H).pageW = mm_to_pt 210 ∧
    (_layout_a4_with_margins 8 W H).pageH = mm_to_pt 297 ∧
    ((mm_to_pt 210 - mm_to_pt 8 - mm_to_pt 8) / (mm_to_pt 297 - mm_to_pt 8 - mm_to_pt 8) <
        (W:ℚ)/(H:ℚ) →
      (_layout_a4_with_margins 8 W H).w = mm_to_pt 210 - mm_to_pt 8 - mm_to_pt 8 ∧
      (_layout_a4_with_margins 8 W H).h =
        (mm_to_pt 210 - mm_to_pt 8 - mm_to_pt 8) / ((W:ℚ)/(H:ℚ))) ∧
    (¬ ((mm_to_pt 210 - mm_to_pt 8 - mm_to_pt 8) / (mm_to_pt 297 - mm_to_pt 8 - mm_to_pt 8) <
        (W:ℚ)/(H:ℚ)) →
      (_layout_a4_with_margins 8 W H).h = mm_to_pt 297 - mm_to_pt 8 - mm_to_pt 8 ∧
      (_layout_a4_with_margins 8 W H).w =
        (mm_to_pt 297 - mm_to_pt 8 - mm_to_pt 8) * ((W:ℚ)/(H:ℚ))) ∧
    (_layout_a4_with_margins 8 W H).x =
      ((_layout_a4_with_margins 8 W H).pageW - (_layout_a4_with_margins 8 W H).w) / 2 ∧
    (_layout_a4_with_margins 8 W H).y =
      ((_layout_a4_with_margins 8 W H).pageH - (_layout_a4_with_margins 8 W H).h) / 2 ∧
    (_layout_a4_with_margins 8 W H).w / (_layout_a4_with_margins 8 W H).h =
      (W:ℚ)/(H:ℚ) := by
  simp only [_layout_a4_with_margins]
  split_ifs with hc
  · refine ⟨rfl, rfl, fun _ => ⟨rfl, rfl⟩, fun h => absurd hc h, rfl, rfl, ?_⟩
    show (mm_to_pt 210 - mm_to_pt 8 - mm_to_pt 8) /
        ((mm_to_pt 210 - mm_to_pt 8 - mm_to_pt 8) / ((W:ℚ)/(H:ℚ))) = (W:ℚ)/(H:ℚ)
    rw [div_div_eq_mul_div, mul_comm, mul_div_assoc,
      div_self (by norm_num [mm_to_pt]), mul_one]
  · refine ⟨rfl, rfl, fun h => absurd h hc, fun _ => ⟨rfl, rfl⟩, rfl, rfl, ?_⟩
    show (mm_to_pt 297 - mm_to_pt 8 - mm_to_pt 8) * ((W:ℚ)/(H:ℚ)) /
        (mm_to_pt 297 - mm_to_pt 8 - mm_to_pt 8) = (W:ℚ)/(H:ℚ)
    rw [mul_comm, mul_div_assoc, div_self (by norm_num [mm_to_pt]), mul_one]

/-- C4 witness at the pixel dimensions 2 by 1 (the width-limited branch). -/
theorem c4_witness :
    (_layout_a4_with_margins 8 2 1).pageW = mm_to_pt 210 ∧
    (_layout_a4_with_margins 8 2 1).pageH = mm_to_pt 297 ∧
    ((mm_to_pt 210 - mm_to_pt 8 - mm_to_pt 8) / (mm_to_pt 297 - mm_to_pt 8 - mm_to_pt 8) <
        (2:ℚ)/(1:ℚ) →
      (_layout_a4_with_margins 8 2 1).w = mm_to_pt 210 - mm_to_pt 8 - mm_to_pt 8 ∧
      (_layout_a4_with_margins 8 2 1).h =
        (mm_to_pt 210 - mm_to_pt 8 - mm_to_pt 8) / ((2:ℚ)/(1:ℚ))) ∧
    (¬ ((mm_to_pt 210 - mm_to_pt 8 - mm_to_pt 8) / (mm_to_pt 297 - mm_to_pt 8 - mm_to_pt 8) <
        (2:ℚ)/(1:ℚ)) →
      (_layout_a4_with_margins 8 2 1).h = mm_to_pt 297 - mm_to_pt 8 - mm_to_pt 8 ∧
      (_layout_a4_with_margins 8 2 1).w =
        (mm_to_pt 297 - mm_to_pt 8 - mm_to_pt 8) * ((2:ℚ)/(1:ℚ))) ∧
    (_layout_a4_with_margins 8 2 1).x =
      ((_layout_a4_with_margins 8 2 1).pageW - (_layout_a4_with_margins 8 2 1).w) / 2 ∧
    (_layout_a4_with_margins 8 2 1).y =
      ((_layout_a4_with_margins 8 2 1).pageH - (_layout_a4_with_margins 8 2 1).h) / 2 ∧
    (_layout_a4_with_margins 8 2 1).w / (_layout_a4_with_margins 8 2 1).h =
      (2:ℚ)/(1:ℚ) := by
  have h := c4_layout_formulas 2 1 (by decide) (by decide)
  have hcast : ((2:ℕ):ℚ)/((1:ℕ):ℚ) = (2:ℚ)/(1:ℚ) := by norm_num
  rw [hcast] at h
  exact h
